import Mathlib

/-
Verification of the Deep-MVLM PLY alignment utilities.

Shallow embedding of:
  - anatomical_aligner.py      (AnatomicalAligner: orientation detection,
                                rotation solving, anatomical transform)
  - scale_free_aligner.py      (ScaleFreeAligner: scale-preserving transform)
  - hybrid_scale_free_aligner.py (HybridScaleFreeAligner: analysis + method scoring)
  - eyuptest.py                (ComprehensivePLYTestSuite: tier classification and
                                the per-mesh two-method test/retry logic)

Conventions of the embedding:
  - Python floats are idealized as exact arithmetic: rationals (ℚ) for the
    purely discrete/score/threshold logic, reals (ℝ) for the vector geometry
    (which needs square roots for norms).  Division by zero denotes 0 in this
    idealization (Python raises ZeroDivisionError / numpy yields NaN there;
    each such place is flagged where it matters).
  - `diagonal = sqrt(w² + h² + d²)` is represented by its square `diagonalSq`
    in the rational part; every comparison `diagonal ⋈ c` against a
    non-negative constant c is rendered as `diagonalSq ⋈ c²`, which is
    equivalent because sqrt is monotone and both sides are non-negative.
-/

/-! ### Vectors and matrices (numpy arrays of shape (3,) and (3,3)) -/

structure Vec3 where
  (x y z : ℝ)

def dot3 (a b : Vec3) : ℝ := a.x * b.x + a.y * b.y + a.z * b.z

/-- np.cross for 3-vectors. -/
def cross3 (a b : Vec3) : Vec3 :=
  ⟨a.y * b.z - a.z * b.y, a.z * b.x - a.x * b.z, a.x * b.y - a.y * b.x⟩

def zero3 : Vec3 := ⟨0, 0, 0⟩

instance : Add Vec3 := ⟨fun a b => ⟨a.x + b.x, a.y + b.y, a.z + b.z⟩⟩

instance : Sub Vec3 := ⟨fun a b => ⟨a.x - b.x, a.y - b.y, a.z - b.z⟩⟩

instance : Neg Vec3 := ⟨fun a => ⟨-a.x, -a.y, -a.z⟩⟩

instance : SMul ℝ Vec3 := ⟨fun s a => ⟨s * a.x, s * a.y, s * a.z⟩⟩

/-- np.linalg.norm. -/
noncomputable def vnorm (v : Vec3) : ℝ := Real.sqrt (dot3 v v)

/-- `v / np.linalg.norm(v)` (componentwise division by the scalar norm). -/
noncomputable def vnormalize (v : Vec3) : Vec3 :=
  ⟨v.x / vnorm v, v.y / vnorm v, v.z / vnorm v⟩

/-- 3×3 matrix, row-major fields: `ab` is row a, column b. -/
structure Mat3 where
  (xx xy xz yx yy yz zx zy zz : ℝ)

/-- np.column_stack([a, b, c]). -/
def colStack (a b c : Vec3) : Mat3 :=
  ⟨a.x, b.x, c.x, a.y, b.y, c.y, a.z, b.z, c.z⟩

def transposeM (M : Mat3) : Mat3 :=
  ⟨M.xx, M.yx, M.zx, M.xy, M.yy, M.zy, M.xz, M.yz, M.zz⟩

def mmul (A B : Mat3) : Mat3 :=
  ⟨A.xx * B.xx + A.xy * B.yx + A.xz * B.zx,
   A.xx * B.xy + A.xy * B.yy + A.xz * B.zy,
   A.xx * B.xz + A.xy * B.yz + A.xz * B.zz,
   A.yx * B.xx + A.yy * B.yx + A.yz * B.zx,
   A.yx * B.xy + A.yy * B.yy + A.yz * B.zy,
   A.yx * B.xz + A.yy * B.yz + A.yz * B.zz,
   A.zx * B.xx + A.zy * B.yx + A.zz * B.zx,
   A.zx * B.xy + A.zy * B.yy + A.zz * B.zy,
   A.zx * B.xz + A.zy * B.yz + A.zz * B.zz⟩

def one3 : Mat3 := ⟨1, 0, 0, 0, 1, 0, 0, 0, 1⟩

def det3 (M : Mat3) : ℝ :=
  M.xx * (M.yy * M.zz - M.yz * M.zy)
    - M.xy * (M.yx * M.zz - M.yz * M.zx)
    + M.xz * (M.yx * M.zy - M.yy * M.zx)

/-- Classical adjugate (transposed cofactor matrix); used only to relate
left and right orthogonality of the frame matrices. -/
def adj3 (M : Mat3) : Mat3 :=
  ⟨M.yy * M.zz - M.yz * M.zy, -(M.xy * M.zz - M.xz * M.zy), M.xy * M.yz - M.xz * M.yy,
   -(M.yx * M.zz - M.yz * M.zx), M.xx * M.zz - M.xz * M.zx, -(M.xx * M.yz - M.xz * M.yx),
   M.yx * M.zy - M.yy * M.zx, -(M.xx * M.zy - M.xy * M.zx), M.xx * M.yy - M.xy * M.yx⟩

def smulM (s : ℝ) (M : Mat3) : Mat3 :=
  ⟨s * M.xx, s * M.xy, s * M.xz, s * M.yx, s * M.yy, s * M.yz, s * M.zx, s * M.zy, s * M.zz⟩

/-- Matrix · vector. -/
def mulV (M : Mat3) (v : Vec3) : Vec3 :=
  ⟨M.xx * v.x + M.xy * v.y + M.xz * v.z,
   M.yx * v.x + M.yy * v.y + M.yz * v.z,
   M.zx * v.x + M.zy * v.y + M.zz * v.z⟩

/-! ### AnatomicalAligner.calculate_rotation_matrix (anatomical_aligner.py 195-220) -/

/-- `from_right` step: `normalize(cross(up, nose))`. -/
noncomputable def right_of (up nose : Vec3) : Vec3 := vnormalize (cross3 up nose)

/-- Re-orthogonalized up direction: `cross(nose, from_right)`
(anatomical_aligner.py lines 207 and 211). -/
noncomputable def reorth_up (up nose : Vec3) : Vec3 := cross3 nose (right_of up nose)

/-- anatomical_aligner.py lines 195-220, translated step by step:
normalize the four inputs, build the two orthogonal frames by the
cross-product construction, column-stack them, return `to_matrix @ from_matrix.T`. -/
noncomputable def calculate_rotation_matrix (from_nose from_up to_nose to_up : Vec3) : Mat3 :=
  let fn := vnormalize from_nose
  let fu0 := vnormalize from_up
  let tn := vnormalize to_nose
  let tu0 := vnormalize to_up
  let from_right := vnormalize (cross3 fu0 fn)
  let fu := cross3 fn from_right
  let to_right := vnormalize (cross3 tu0 tn)
  let tu := cross3 tn to_right
  mmul (colStack to_right tu tn) (transposeM (colStack from_right fu fn))

/-! ### Orientation detection (anatomical_aligner.py 62-143) -/

inductive OrientationGuess
  | standard
  | z_up
  | x_up
  | unknown
deriving DecidableEq, Repr

/-- anatomical_aligner.py lines 97-112: classify orientation from the three
axis ranges.  The Python chained comparisons `y > x > z` etc. are conjunctions. -/
def orientation_guess_of (x_range y_range z_range : ℚ) : OrientationGuess :=
  if y_range > x_range ∧ x_range > z_range then .standard
  else if z_range > y_range ∧ y_range > x_range then .z_up
  else if x_range > z_range ∧ z_range > y_range then .x_up
  else .unknown

structure AnatomyInfo where
  orientation_guess : OrientationGuess
  estimated_nose_dir : Vec3
  estimated_up_dir : Vec3

/-- anatomical_aligner.py `detect_anatomical_features`: ranges come from the
bounds 6-tuple; each orientation branch fixes the estimated nose/up axis
directions (lines 97-112).  The extremal nose/head-top candidate points are
diagnostic only and not part of the transform, so they are not modelled. -/
def detect_anatomical_features (b0 b1 b2 b3 b4 b5 : ℚ) : AnatomyInfo :=
  match orientation_guess_of (b1 - b0) (b3 - b2) (b5 - b4) with
  | .standard => ⟨.standard, ⟨0, 0, 1⟩, ⟨0, 1, 0⟩⟩
  | .z_up => ⟨.z_up, ⟨1, 0, 0⟩, ⟨0, 0, 1⟩⟩
  | .x_up => ⟨.x_up, ⟨0, 1, 0⟩, ⟨1, 0, 0⟩⟩
  | .unknown => ⟨.unknown, ⟨0, 0, 1⟩, ⟨0, 1, 0⟩⟩

/-- The fixed anatomical standard (anatomical_aligner.py lines 18-23). -/
def nose_direction : Vec3 := ⟨0, 0, 1⟩

def up_direction : Vec3 := ⟨0, 1, 0⟩

def anatomical_center : Vec3 := ⟨0, 0, 0⟩

/-- Result of `analyze_ply_anatomy`: the mesh center (mean vertex), the raw
VTK bounds 6-tuple, and the detected anatomy. Mesh loading itself is an
external collaborator; center and bounds are taken as inputs. -/
structure PlyAnalysis where
  center : Vec3
  (b0 b1 b2 b3 b4 b5 : ℚ)
  anatomy : AnatomyInfo

def analyze_ply_anatomy (center : Vec3) (b0 b1 b2 b3 b4 b5 : ℚ) : PlyAnalysis :=
  ⟨center, b0, b1, b2, b3, b4, b5, detect_anatomical_features b0 b1 b2 b3 b4 b5⟩

structure TransformParams where
  translation : Vec3
  rotation_matrix : Mat3
  scale_factor : ℚ
  anatomy_guess : OrientationGuess

/-- anatomical_aligner.py `calculate_anatomical_transform` (lines 145-193):
translation = -center, rotation from estimated dirs to the anatomical
standard, scale = 190 / abs(bounds[3] - bounds[2]).  Note the scale divisor
is always the raw Y extent of the bounds, independent of the orientation
guess.  (In ℚ, 190/0 = 0; Python raises ZeroDivisionError there.) -/
noncomputable def calculate_anatomical_transform (pa : PlyAnalysis) : TransformParams :=
  ⟨-pa.center,
   calculate_rotation_matrix pa.anatomy.estimated_nose_dir pa.anatomy.estimated_up_dir
     nose_direction up_direction,
   190 / |pa.b3 - pa.b2|,
   pa.anatomy.orientation_guess⟩

/-- scale_free_aligner.py `calculate_anatomical_transform_no_scale` (lines 18-54):
translation = target_center - center, same rotation, scale fixed to 1.0. -/
noncomputable def calculate_anatomical_transform_no_scale (pa : PlyAnalysis) : TransformParams :=
  ⟨anatomical_center - pa.center,
   calculate_rotation_matrix pa.anatomy.estimated_nose_dir pa.anatomy.estimated_up_dir
     nose_direction up_direction,
   1,
   pa.anatomy.orientation_guess⟩

/-- The VTK PostMultiply pipeline of both aligners: Translate, then
Concatenate(rotation), then Scale(s,s,s) — a point p maps to
s • R(p + t).  In the scale-free aligner no scale step is issued, which
coincides with s = 1. -/
noncomputable def apply_vtk_transform (tp : TransformParams) (p : Vec3) : Vec3 :=
  (tp.scale_factor : ℝ) • mulV tp.rotation_matrix (p + tp.translation)

/-! ### HybridScaleFreeAligner (hybrid_scale_free_aligner.py) -/

/-- Structural descriptors computed by `analyze_ply_characteristics`
(hybrid_scale_free_aligner.py 22-106).  `diagonalSq` stands for the square
of the diagonal (see header note). -/
structure PlyCharacteristics where
  n_points : ℕ
  width : ℚ
  height : ℚ
  depth : ℚ
  diagonalSq : ℚ
  max_aspect_ratio : ℚ
  is_standard_face : Bool
  vertex_density : ℚ
  has_colors : Bool
  has_normals : Bool
  n_arrays : ℕ

/-- hybrid_scale_free_aligner.py lines 41-77.  The vertex density guard
`if diagonal > 0` is rendered as `0 < diagonalSq` (equivalent for
diagonal = sqrt diagonalSq ≥ 0). -/
def analyze_ply_characteristics (n_points : ℕ) (b0 b1 b2 b3 b4 b5 : ℚ)
    (has_colors has_normals : Bool) (n_arrays : ℕ) : PlyCharacteristics :=
  let width := b1 - b0
  let height := b3 - b2
  let depth := b5 - b4
  let diagonalSq := width ^ 2 + height ^ 2 + depth ^ 2
  let r1 := max width height / min width height
  let r2 := max width depth / min width depth
  let r3 := max height depth / min height depth
  let max_aspect_ratio := max r1 (max r2 r3)
  let is_standard_face := decide ((width < height ∧ depth < width) ∧ max_aspect_ratio < 2)
  let vertex_density := if 0 < diagonalSq then (n_points : ℚ) / diagonalSq else 0
  ⟨n_points, width, height, depth, diagonalSq, max_aspect_ratio, is_standard_face,
   vertex_density, has_colors, has_normals, n_arrays⟩

inductive Method
  | anatomical
  | ultimate
deriving DecidableEq, Repr

/-- hybrid_scale_free_aligner.py `select_optimal_method` (lines 108-172).
Returns (selected method, anatomical_score, ultimate_score).  Scores
accumulate through the five factors exactly in source order; the comparisons
`100 < diagonal < 300`, `diagonal > 500`, `diagonal < 50` are rendered on
`diagonalSq` against the squared constants. -/
def select_optimal_method (a : PlyCharacteristics) : Method × ℕ × ℕ :=
  let f1 : ℕ × ℕ := if a.is_standard_face then (3, 0) else (0, 2)
  let f2 : ℕ × ℕ :=
    if a.max_aspect_ratio < 1.5 then (f1.1 + 2, f1.2)
    else if a.max_aspect_ratio > 3 then (f1.1, f1.2 + 3)
    else f1
  let f3 : ℕ × ℕ :=
    if a.vertex_density > 100 then (f2.1 + 1, f2.2)
    else if a.vertex_density < 10 then (f2.1, f2.2 + 1)
    else f2
  let f4 : ℕ × ℕ :=
    if a.has_colors && a.has_normals then (f3.1 + 2, f3.2)
    else if a.n_arrays = 0 then (f3.1, f3.2 + 1)
    else f3
  let f5 : ℕ × ℕ :=
    if 10000 < a.diagonalSq ∧ a.diagonalSq < 90000 then (f4.1 + 1, f4.2)
    else if 250000 < a.diagonalSq ∨ a.diagonalSq < 2500 then (f4.1, f4.2 + 2)
    else f4
  (if f5.2 ≤ f5.1 then Method.anatomical else Method.ultimate, f5)

/-! ### ComprehensivePLYTestSuite (eyuptest.py) -/

/-- eyuptest.py lines 27-29. -/
def excellent_threshold : ℚ := 10

def good_threshold : ℚ := 100

def poor_threshold : ℚ := 10000

inductive Tier
  | excellent
  | very_good
  | good
  | poor
deriving DecidableEq, Repr

/-- eyuptest.py `classify_performance` (lines 157-166). -/
def classify_performance (ransac_error : ℚ) : Tier :=
  if ransac_error < excellent_threshold then .excellent
  else if ransac_error < good_threshold then .very_good
  else if ransac_error < poor_threshold then .good
  else .poor

/-- eyuptest.py `save_results` performance_breakdown (lines 461-464):
counts per tier over a list of errors, with the literal boundaries 10/100/10000. -/
def performance_breakdown (errors : List ℚ) : ℕ × ℕ × ℕ × ℕ :=
  (errors.countP (fun r => decide (r < 10)),
   errors.countP (fun r => decide (10 ≤ r ∧ r < 100)),
   errors.countP (fun r => decide (100 ≤ r ∧ r < 10000)),
   errors.countP (fun r => decide (10000 ≤ r)))

/-- Outcome record of `test_single_file_hybrid` restricted to the fields the
decision logic uses.  `ultimate_tested` records whether the ultimate method
was invoked at all (the code's only retry edge). -/
structure HybridResult where
  anatomical_result : Option ℚ
  ultimate_result : Option ℚ
  best_method : Option Method
  best_ransac : Option ℚ
  ultimate_tested : Bool
deriving DecidableEq, Repr

/-- eyuptest.py `test_single_file_hybrid` (lines 168-274).  Inputs are the
outcomes the two external prediction runs would produce (`some error` on
success).  The anatomical method is always attempted first; the ultimate
method runs unless the anatomical error classifies as excellent
(lines 206-212).  With both errors available, lines 239-250 pick anatomical
iff its error is ≤ the ultimate error. -/
def test_single_file_hybrid (anat ult : Option ℚ) : HybridResult :=
  match anat with
  | some a =>
    if classify_performance a = Tier.excellent then
      ⟨some a, none, some .anatomical, some a, false⟩
    else
      match ult with
      | some u =>
        if a ≤ u then ⟨some a, some u, some .anatomical, some a, true⟩
        else ⟨some a, some u, some .ultimate, some u, true⟩
      | none => ⟨some a, none, some .anatomical, some a, true⟩
  | none =>
    match ult with
    | some u => ⟨none, some u, some .ultimate, some u, true⟩
    | none => ⟨none, none, none, none, true⟩

/-! ### Helper lemmas -/

lemma classify_excellent_iff (a : ℚ) :
    classify_performance a = Tier.excellent ↔ a < excellent_threshold := by
  unfold classify_performance
  split_ifs with h1 h2 h3 <;> simp_all

lemma analyze_scenarioA (n : ℕ) (hc hn : Bool) (na : ℕ) :
    analyze_ply_characteristics n 0 50 0 190 0 40 hc hn na =
      ⟨n, 50, 190, 40, 40200, 19 / 4, false, (n : ℚ) / 40200, hc, hn, na⟩ := by
  simp only [analyze_ply_characteristics, PlyCharacteristics.mk.injEq]
  norm_num [max_def, min_def]

/-! ### Claim theorems -/

/-- C8: the tier classifier uses half-open boundaries (excellent iff error < 10,
very_good iff 10 ≤ error < 100, good iff 100 ≤ error < 10000, poor iff
error ≥ 10000), an error of exactly 10.0 is very_good, and the batch
[4.1, 65.0, 9999.0, 15.0, 80000.0] yields counts (1, 2, 1, 1). -/
theorem tier_classifier_halfopen :
    (∀ e : ℚ, 0 ≤ e →
      ((classify_performance e = Tier.excellent ↔ e < 10) ∧
       (classify_performance e = Tier.very_good ↔ 10 ≤ e ∧ e < 100) ∧
       (classify_performance e = Tier.good ↔ 100 ≤ e ∧ e < 10000) ∧
       (classify_performance e = Tier.poor ↔ 10000 ≤ e))) ∧
    classify_performance 10 = Tier.very_good ∧
    performance_breakdown [41 / 10, 65, 9999, 15, 80000] = (1, 2, 1, 1) := by
  refine ⟨fun e he => ?_, by decide, by
    norm_num [performance_breakdown, List.countP, List.countP.go]⟩
  unfold classify_performance excellent_threshold good_threshold poor_threshold
  split_ifs with h1 h2 h3 <;>
    refine ⟨?_, ?_, ?_, ?_⟩ <;> simp <;>
      first
        | linarith
        | (intro h; linarith)
        | (constructor <;> linarith)

/-- C8 witness: instantiation at the boundary error 10. -/
theorem tier_classifier_halfopen_witness :
    (0 : ℚ) ≤ 10 ∧
    ((classify_performance 10 = Tier.excellent ↔ (10 : ℚ) < 10) ∧
     (classify_performance 10 = Tier.very_good ↔ (10 : ℚ) ≤ 10 ∧ (10 : ℚ) < 100) ∧
     (classify_performance 10 = Tier.good ↔ (100 : ℚ) ≤ 10 ∧ (10 : ℚ) < 10000) ∧
     (classify_performance 10 = Tier.poor ↔ (10000 : ℚ) ≤ 10)) :=
  ⟨by norm_num, tier_classifier_halfopen.1 10 (by norm_num)⟩

/-- C2 counterexample: a first (anatomical) attempt with finite error 50 is
strictly below good_threshold = 100, yet the code still runs the alternate
(ultimate) method, because the no-retry shortcut fires only for errors below
excellent_threshold = 10 (eyuptest.py lines 206-212). -/
theorem retry_threshold_counterexample :
    (50 : ℚ) < good_threshold ∧
    (test_single_file_hybrid (some 50) (some 30)).ultimate_tested = true := by
  constructor
  · norm_num [good_threshold]
  · decide

/-- C2 amended: for a first attempt with a finite error, the attempt is
accepted with no retry iff the error is strictly below excellent_threshold
(10.0, not good_threshold = 100); otherwise the alternate method is tried
exactly once. -/
theorem hybrid_accept_iff_excellent (a : ℚ) (u : Option ℚ) :
    ((test_single_file_hybrid (some a) u).ultimate_tested = false ↔ a < excellent_threshold) ∧
    (a < excellent_threshold →
      (test_single_file_hybrid (some a) u).best_method = some Method.anatomical ∧
      (test_single_file_hybrid (some a) u).best_ransac = some a ∧
      (test_single_file_hybrid (some a) u).ultimate_result = none) := by
  by_cases h : a < excellent_threshold
  · have hc : classify_performance a = Tier.excellent := (classify_excellent_iff a).mpr h
    simp [test_single_file_hybrid, hc, h]
  · have hc : ¬ classify_performance a = Tier.excellent := fun hx =>
      h ((classify_excellent_iff a).mp hx)
    cases u with
    | none => simp [test_single_file_hybrid, hc, h]
    | some uv =>
      by_cases hle : a ≤ uv <;> simp [test_single_file_hybrid, hc, h, hle]

/-- C2 witness: the amended rule instantiated at error 5 with an available
ultimate outcome 30. -/
theorem hybrid_accept_iff_excellent_witness :
    (((test_single_file_hybrid (some 5) (some 30)).ultimate_tested = false ↔
        (5 : ℚ) < excellent_threshold) ∧
     ((5 : ℚ) < excellent_threshold →
       (test_single_file_hybrid (some 5) (some 30)).best_method = some Method.anatomical ∧
       (test_single_file_hybrid (some 5) (some 30)).best_ransac = some 5 ∧
       (test_single_file_hybrid (some 5) (some 30)).ultimate_result = none)) :=
  hybrid_accept_iff_excellent 5 (some 30)

/-- C9: when both methods run and both return finite errors, both attempts
are retained in the result (neither overwrites the other), the ultimate
method is invoked exactly once, and the final decision takes the attempt
with the lower error (ties go to anatomical, eyuptest.py lines 235-250). -/
theorem hybrid_retains_attempts_and_picks_min (a u : ℚ) (h : ¬ a < excellent_threshold) :
    (test_single_file_hybrid (some a) (some u)).anatomical_result = some a ∧
    (test_single_file_hybrid (some a) (some u)).ultimate_result = some u ∧
    (test_single_file_hybrid (some a) (some u)).ultimate_tested = true ∧
    (test_single_file_hybrid (some a) (some u)).best_ransac = some (min a u) ∧
    (test_single_file_hybrid (some a) (some u)).best_method =
      some (if a ≤ u then Method.anatomical else Method.ultimate) := by
  have hc : ¬ classify_performance a = Tier.excellent := fun hx =>
    h ((classify_excellent_iff a).mp hx)
  by_cases hle : a ≤ u <;>
    simp [test_single_file_hybrid, hc, hle, min_def]

/-- C9 witness: a first attempt with error 50000 (≥ poor_threshold) retries
once with the other method and the final result is the lower error 20. -/
theorem hybrid_retains_attempts_and_picks_min_witness :
    ¬ (50000 : ℚ) < excellent_threshold ∧
    ((test_single_file_hybrid (some 50000) (some 20)).anatomical_result = some 50000 ∧
     (test_single_file_hybrid (some 50000) (some 20)).ultimate_result = some 20 ∧
     (test_single_file_hybrid (some 50000) (some 20)).ultimate_tested = true ∧
     (test_single_file_hybrid (some 50000) (some 20)).best_ransac = some (min 50000 20) ∧
     (test_single_file_hybrid (some 50000) (some 20)).best_method =
       some (if (50000 : ℚ) ≤ 20 then Method.anatomical else Method.ultimate)) :=
  ⟨by norm_num [excellent_threshold],
   hybrid_retains_attempts_and_picks_min 50000 20 (by norm_num [excellent_threshold])⟩

/-- C1 counterexample: for bounding extents (width=50, height=190, depth=40)
the orientation guess is standard, but even with every anatomical-leaning
descriptor (high vertex density, colors and normals present) the scorer gives
anatomical 4 and ultimate 5, because the max aspect ratio 190/40 = 4.75 fails
the `< 2.0` standard-face test (ultimate +2) and exceeds 3.0 (ultimate +3);
the selected method is ultimate, contradicting anatomical_score > ultimate_score. -/
theorem scenarioA_counterexample :
    orientation_guess_of 50 190 40 = OrientationGuess.standard ∧
    (select_optimal_method
      (analyze_ply_characteristics 10000000 0 50 0 190 0 40 true true 2)).2.1 = 4 ∧
    (select_optimal_method
      (analyze_ply_characteristics 10000000 0 50 0 190 0 40 true true 2)).2.2 = 5 ∧
    (select_optimal_method
      (analyze_ply_characteristics 10000000 0 50 0 190 0 40 true true 2)).1 =
        Method.ultimate := by
  rw [analyze_scenarioA]
  refine ⟨by decide, ?_, ?_, ?_⟩ <;>
    · unfold select_optimal_method
      norm_num

/-- C1 amended: for every mesh with bounding extents (50, 190, 40), the
orientation guess is standard, but for all possible remaining descriptors
the ultimate score strictly exceeds the anatomical score, so the selected
method is ultimate (not anatomical). -/
theorem scenarioA_selects_ultimate (n : ℕ) (hc hn : Bool) (na : ℕ) :
    orientation_guess_of 50 190 40 = OrientationGuess.standard ∧
    (select_optimal_method (analyze_ply_characteristics n 0 50 0 190 0 40 hc hn na)).2.1 <
      (select_optimal_method (analyze_ply_characteristics n 0 50 0 190 0 40 hc hn na)).2.2 ∧
    (select_optimal_method (analyze_ply_characteristics n 0 50 0 190 0 40 hc hn na)).1 =
      Method.ultimate := by
  rw [analyze_scenarioA]
  refine ⟨by decide, ?_, ?_⟩ <;>
    · unfold select_optimal_method
      norm_num
      split_ifs <;> norm_num

/-- C4: the code performs no degenerate-geometry rejection.  For a mesh with
zero bounding diagonal (all extents 0), orientation classification still runs
and returns the documented default (`unknown` with nose=+Z, up=+Y); the
normal-mode transform then computes scale = 190/|0| (ZeroDivisionError in the
Python source; 0 in this exact-arithmetic model).  No GeometryDegenerate
error exists anywhere in the repository. -/
theorem degenerate_mesh_not_rejected :
    detect_anatomical_features 0 0 0 0 0 0 =
      ⟨OrientationGuess.unknown, ⟨0, 0, 1⟩, ⟨0, 1, 0⟩⟩ ∧
    (analyze_ply_anatomy anatomical_center 0 0 0 0 0 0).anatomy.orientation_guess =
      OrientationGuess.unknown ∧
    (calculate_anatomical_transform
      (analyze_ply_anatomy anatomical_center 0 0 0 0 0 0)).scale_factor = 190 / |(0 : ℚ)| := by
  have h : orientation_guess_of 0 0 0 = OrientationGuess.unknown := by decide
  refine ⟨?_, ?_, ?_⟩ <;>
    simp [detect_anatomical_features, analyze_ply_anatomy, calculate_anatomical_transform, h]

/-- C10: in normal (scaling) mode the scale factor is always
190 / |bounds[3] - bounds[2]| (the raw Y extent), independent of the detected
orientation; in particular for a z_up-classified mesh (extents 10, 20, 40) the
divisor is 20 (the width under the z_up convention) and for an
x_up-classified mesh (extents 40, 10, 20) it is 10 (the depth). -/
theorem scale_divisor_raw_y_extent :
    (∀ (center : Vec3) (b0 b1 b2 b3 b4 b5 : ℚ),
      (calculate_anatomical_transform (analyze_ply_anatomy center b0 b1 b2 b3 b4 b5)).scale_factor
        = 190 / |b3 - b2|) ∧
    ((analyze_ply_anatomy anatomical_center 0 10 0 20 0 40).anatomy.orientation_guess
        = OrientationGuess.z_up ∧
     (calculate_anatomical_transform
        (analyze_ply_anatomy anatomical_center 0 10 0 20 0 40)).scale_factor = 190 / 20) ∧
    ((analyze_ply_anatomy anatomical_center 0 40 0 10 0 20).anatomy.orientation_guess
        = OrientationGuess.x_up ∧
     (calculate_anatomical_transform
        (analyze_ply_anatomy anatomical_center 0 40 0 10 0 20)).scale_factor = 190 / 10) := by
  have hz : orientation_guess_of 10 20 40 = OrientationGuess.z_up := by decide
  have hx : orientation_guess_of 40 10 20 = OrientationGuess.x_up := by decide
  refine ⟨fun center b0 b1 b2 b3 b4 b5 => rfl, ⟨?_, ?_⟩, ⟨?_, ?_⟩⟩ <;>
    norm_num [calculate_anatomical_transform, analyze_ply_anatomy,
      detect_anatomical_features, hz, hx]

/-! ### Vector and matrix algebra lemmas -/

lemma vec3_add_def (a b : Vec3) : a + b = ⟨a.x + b.x, a.y + b.y, a.z + b.z⟩ := rfl

lemma vec3_sub_def (a b : Vec3) : a - b = ⟨a.x - b.x, a.y - b.y, a.z - b.z⟩ := rfl

lemma vec3_neg_def (a : Vec3) : -a = ⟨-a.x, -a.y, -a.z⟩ := rfl

lemma vec3_smul_def (s : ℝ) (a : Vec3) : s • a = ⟨s * a.x, s * a.y, s * a.z⟩ := rfl

lemma dot3_comm (a b : Vec3) : dot3 a b = dot3 b a := by
  unfold dot3; ring

lemma cross3_dot_left (a b : Vec3) : dot3 (cross3 a b) a = 0 := by
  unfold dot3 cross3; ring

lemma cross3_dot_right (a b : Vec3) : dot3 (cross3 a b) b = 0 := by
  unfold dot3 cross3; ring

lemma lagrange_identity (a b : Vec3) :
    dot3 (cross3 a b) (cross3 a b) = dot3 a a * dot3 b b - dot3 a b ^ 2 := by
  unfold dot3 cross3; ring

lemma dot3_self_nonneg (v : Vec3) : 0 ≤ dot3 v v := by
  unfold dot3
  nlinarith [sq_nonneg v.x, sq_nonneg v.y, sq_nonneg v.z]

lemma dot3_self_pos (v : Vec3) (h : v ≠ zero3) : 0 < dot3 v v := by
  rcases v with ⟨x, y, z⟩
  have hne : ¬(x = 0 ∧ y = 0 ∧ z = 0) := by
    rintro ⟨hx, hy, hz⟩
    exact h (by simp [zero3, hx, hy, hz])
  by_contra hc
  push_neg at hc
  unfold dot3 at hc
  simp only at hc
  have hx : x = 0 := by nlinarith [sq_nonneg x, sq_nonneg y, sq_nonneg z]
  have hy : y = 0 := by nlinarith [sq_nonneg x, sq_nonneg y, sq_nonneg z]
  have hz : z = 0 := by nlinarith [sq_nonneg x, sq_nonneg y, sq_nonneg z]
  exact hne ⟨hx, hy, hz⟩

lemma vnormalize_unit (v : Vec3) (h : dot3 v v = 1) : vnormalize v = v := by
  unfold vnormalize vnorm
  rw [h, Real.sqrt_one]
  simp

lemma dot3_vnormalize_self (v : Vec3) (h : v ≠ zero3) :
    dot3 (vnormalize v) (vnormalize v) = 1 := by
  have hp : 0 < dot3 v v := dot3_self_pos v h
  have hne : Real.sqrt (dot3 v v) ≠ 0 := (Real.sqrt_pos.mpr hp).ne'
  have hsq : Real.sqrt (dot3 v v) * Real.sqrt (dot3 v v) = dot3 v v :=
    Real.mul_self_sqrt hp.le
  simp only [vnormalize, vnorm, dot3] at hne hsq ⊢
  field_simp [hne]
  linear_combination -hsq

lemma dot3_vnormalize_of_orth (w v : Vec3) (h : dot3 w v = 0) : dot3 w (vnormalize v) = 0 := by
  simp only [vnormalize, dot3] at h ⊢
  have hcollect :
      w.x * (v.x / vnorm v) + w.y * (v.y / vnorm v) + w.z * (v.z / vnorm v) =
        (w.x * v.x + w.y * v.y + w.z * v.z) / vnorm v := by ring
  rw [hcollect, h, zero_div]

lemma mmul_assoc3 (A B C : Mat3) : mmul (mmul A B) C = mmul A (mmul B C) := by
  simp only [mmul, Mat3.mk.injEq]
  refine ⟨?_, ?_, ?_, ?_, ?_, ?_, ?_, ?_, ?_⟩ <;> ring

lemma mmul_one3 (M : Mat3) : mmul M one3 = M := by
  cases M
  simp only [mmul, one3, Mat3.mk.injEq]
  refine ⟨?_, ?_, ?_, ?_, ?_, ?_, ?_, ?_, ?_⟩ <;> ring

lemma one3_mmul (M : Mat3) : mmul one3 M = M := by
  cases M
  simp only [mmul, one3, Mat3.mk.injEq]
  refine ⟨?_, ?_, ?_, ?_, ?_, ?_, ?_, ?_, ?_⟩ <;> ring

lemma transposeM_transposeM (M : Mat3) : transposeM (transposeM M) = M := rfl

lemma transposeM_mmul (A B : Mat3) :
    transposeM (mmul A B) = mmul (transposeM B) (transposeM A) := by
  simp only [mmul, transposeM, Mat3.mk.injEq]
  refine ⟨?_, ?_, ?_, ?_, ?_, ?_, ?_, ?_, ?_⟩ <;> ring

lemma mmul_adj3 (M : Mat3) : mmul M (adj3 M) = smulM (det3 M) one3 := by
  simp only [mmul, adj3, smulM, det3, one3, Mat3.mk.injEq]
  refine ⟨?_, ?_, ?_, ?_, ?_, ?_, ?_, ?_, ?_⟩ <;> ring

lemma det3_mmul (A B : Mat3) : det3 (mmul A B) = det3 A * det3 B := by
  simp only [det3, mmul]; ring

lemma det3_transposeM (M : Mat3) : det3 (transposeM M) = det3 M := by
  simp only [det3, transposeM]; ring

lemma orthogonal_flip (F : Mat3) (h : mmul (transposeM F) F = one3) (hd : det3 F = 1) :
    mmul F (transposeM F) = one3 := by
  have hradj : mmul F (adj3 F) = one3 := by
    rw [mmul_adj3, hd]
    simp [smulM, one3]
  have hT : transposeM F = adj3 F := by
    calc transposeM F = mmul (transposeM F) one3 := (mmul_one3 _).symm
    _ = mmul (transposeM F) (mmul F (adj3 F)) := by rw [hradj]
    _ = mmul (mmul (transposeM F) F) (adj3 F) := (mmul_assoc3 _ _ _).symm
    _ = mmul one3 (adj3 F) := by rw [h]
    _ = adj3 F := one3_mmul _
  rw [hT]
  exact hradj

lemma mulV_mmul (A B : Mat3) (v : Vec3) : mulV (mmul A B) v = mulV A (mulV B v) := by
  simp only [mulV, mmul, Vec3.mk.injEq]
  refine ⟨?_, ?_, ?_⟩ <;> ring

lemma mulV_transpose_colStack (a b c v : Vec3) :
    mulV (transposeM (colStack a b c)) v = ⟨dot3 a v, dot3 b v, dot3 c v⟩ := rfl

lemma mulV_colStack_e2 (a b c : Vec3) : mulV (colStack a b c) ⟨0, 1, 0⟩ = b := by
  simp only [mulV, colStack]
  cases b
  simp

lemma mulV_colStack_e3 (a b c : Vec3) : mulV (colStack a b c) ⟨0, 0, 1⟩ = c := by
  simp only [mulV, colStack]
  cases c
  simp

/-! ### Orthonormal frame construction -/

lemma frame_facts (n u : Vec3) (hn : dot3 n n = 1) (hc : cross3 u n ≠ zero3) :
    dot3 (right_of u n) (right_of u n) = 1 ∧
    dot3 n (right_of u n) = 0 ∧
    dot3 (reorth_up u n) (reorth_up u n) = 1 ∧
    dot3 n (reorth_up u n) = 0 ∧
    dot3 (right_of u n) (reorth_up u n) = 0 := by
  have h1 : dot3 (right_of u n) (right_of u n) = 1 := dot3_vnormalize_self _ hc
  have h2 : dot3 n (right_of u n) = 0 := by
    refine dot3_vnormalize_of_orth n (cross3 u n) ?_
    rw [dot3_comm]
    exact cross3_dot_right u n
  have h4 : dot3 n (reorth_up u n) = 0 := by
    unfold reorth_up
    rw [dot3_comm]
    exact cross3_dot_left n (right_of u n)
  have h5 : dot3 (right_of u n) (reorth_up u n) = 0 := by
    unfold reorth_up
    rw [dot3_comm]
    exact cross3_dot_right n (right_of u n)
  have h3 : dot3 (reorth_up u n) (reorth_up u n) = 1 := by
    unfold reorth_up
    rw [lagrange_identity, hn, h1, h2]
    ring
  exact ⟨h1, h2, h3, h4, h5⟩

lemma frame_transpose_mul (r u2 n : Vec3)
    (hr : dot3 r r = 1) (hu : dot3 u2 u2 = 1) (hn : dot3 n n = 1)
    (hru : dot3 r u2 = 0) (hrn : dot3 r n = 0) (hun : dot3 u2 n = 0) :
    mmul (transposeM (colStack r u2 n)) (colStack r u2 n) = one3 := by
  simp only [dot3] at hr hu hn hru hrn hun
  simp only [mmul, transposeM, colStack, one3, Mat3.mk.injEq]
  exact ⟨by linear_combination hr, by linear_combination hru, by linear_combination hrn,
         by linear_combination hru, by linear_combination hu, by linear_combination hun,
         by linear_combination hrn, by linear_combination hun, by linear_combination hn⟩

lemma frame_det (r n : Vec3) (hr : dot3 r r = 1) (hn : dot3 n n = 1) (hnr : dot3 n r = 0) :
    det3 (colStack r (cross3 n r) n) = 1 := by
  have key : det3 (colStack r (cross3 n r) n) = dot3 n n * dot3 r r - dot3 n r ^ 2 := by
    simp only [det3, colStack, cross3, dot3]
    ring
  rw [key, hr, hn, hnr]
  ring

lemma frames_ortho (n u : Vec3) (hn : dot3 n n = 1) (hc : cross3 u n ≠ zero3) :
    mmul (transposeM (colStack (right_of u n) (reorth_up u n) n))
         (colStack (right_of u n) (reorth_up u n) n) = one3 ∧
    det3 (colStack (right_of u n) (reorth_up u n) n) = 1 := by
  obtain ⟨h1, h2, h3, h4, h5⟩ := frame_facts n u hn hc
  refine ⟨frame_transpose_mul _ _ _ h1 h3 hn h5 (by rw [dot3_comm]; exact h2)
    (by rw [dot3_comm]; exact h4), ?_⟩
  exact frame_det (right_of u n) n h1 hn h2

/-! ### Properties of the rotation solver -/

lemma calcRot_eq_frames (fn fu tn tu : Vec3) (hfn : dot3 fn fn = 1) (hfu : dot3 fu fu = 1)
    (htn : dot3 tn tn = 1) (htu : dot3 tu tu = 1) :
    calculate_rotation_matrix fn fu tn tu =
      mmul (colStack (right_of tu tn) (reorth_up tu tn) tn)
           (transposeM (colStack (right_of fu fn) (reorth_up fu fn) fn)) := by
  unfold calculate_rotation_matrix right_of reorth_up
  simp only [vnormalize_unit fn hfn, vnormalize_unit fu hfu, vnormalize_unit tn htn,
    vnormalize_unit tu htu]
  rfl

lemma calcRot_left_orthogonal (fn fu tn tu : Vec3)
    (hfn : dot3 fn fn = 1) (hfu : dot3 fu fu = 1)
    (htn : dot3 tn tn = 1) (htu : dot3 tu tu = 1)
    (hcf : cross3 fu fn ≠ zero3) (hct : cross3 tu tn ≠ zero3) :
    mmul (transposeM (calculate_rotation_matrix fn fu tn tu))
         (calculate_rotation_matrix fn fu tn tu) = one3 := by
  rw [calcRot_eq_frames fn fu tn tu hfn hfu htn htu]
  obtain ⟨hFo, hFd⟩ := frames_ortho fn fu hfn hcf
  obtain ⟨hTo, hTd⟩ := frames_ortho tn tu htn hct
  set F := colStack (right_of fu fn) (reorth_up fu fn) fn with hF
  set T := colStack (right_of tu tn) (reorth_up tu tn) tn with hT
  rw [transposeM_mmul, transposeM_transposeM]
  rw [mmul_assoc3, ← mmul_assoc3 (transposeM T) T (transposeM F), hTo, one3_mmul]
  exact orthogonal_flip F hFo hFd

lemma calcRot_right_orthogonal (fn fu tn tu : Vec3)
    (hfn : dot3 fn fn = 1) (hfu : dot3 fu fu = 1)
    (htn : dot3 tn tn = 1) (htu : dot3 tu tu = 1)
    (hcf : cross3 fu fn ≠ zero3) (hct : cross3 tu tn ≠ zero3) :
    mmul (calculate_rotation_matrix fn fu tn tu)
         (transposeM (calculate_rotation_matrix fn fu tn tu)) = one3 := by
  rw [calcRot_eq_frames fn fu tn tu hfn hfu htn htu]
  obtain ⟨hFo, hFd⟩ := frames_ortho fn fu hfn hcf
  obtain ⟨hTo, hTd⟩ := frames_ortho tn tu htn hct
  set F := colStack (right_of fu fn) (reorth_up fu fn) fn with hF
  set T := colStack (right_of tu tn) (reorth_up tu tn) tn with hT
  rw [transposeM_mmul, transposeM_transposeM]
  rw [mmul_assoc3, ← mmul_assoc3 (transposeM F) F (transposeM T), hFo, one3_mmul]
  exact orthogonal_flip T hTo hTd

lemma calcRot_det_one (fn fu tn tu : Vec3)
    (hfn : dot3 fn fn = 1) (hfu : dot3 fu fu = 1)
    (htn : dot3 tn tn = 1) (htu : dot3 tu tu = 1)
    (hcf : cross3 fu fn ≠ zero3) (hct : cross3 tu tn ≠ zero3) :
    det3 (calculate_rotation_matrix fn fu tn tu) = 1 := by
  rw [calcRot_eq_frames fn fu tn tu hfn hfu htn htu]
  obtain ⟨hFo, hFd⟩ := frames_ortho fn fu hfn hcf
  obtain ⟨hTo, hTd⟩ := frames_ortho tn tu htn hct
  rw [det3_mmul, det3_transposeM, hFd, hTd]
  ring

lemma calcRot_maps_nose (fn fu tn tu : Vec3)
    (hfn : dot3 fn fn = 1) (hfu : dot3 fu fu = 1)
    (htn : dot3 tn tn = 1) (htu : dot3 tu tu = 1)
    (hcf : cross3 fu fn ≠ zero3) :
    mulV (calculate_rotation_matrix fn fu tn tu) fn = tn := by
  rw [calcRot_eq_frames fn fu tn tu hfn hfu htn htu]
  obtain ⟨h1, h2, h3, h4, h5⟩ := frame_facts fn fu hfn hcf
  rw [mulV_mmul, mulV_transpose_colStack]
  rw [show dot3 (right_of fu fn) fn = 0 from by rw [dot3_comm]; exact h2]
  rw [show dot3 (reorth_up fu fn) fn = 0 from by rw [dot3_comm]; exact h4]
  rw [hfn]
  exact mulV_colStack_e3 _ _ _

lemma calcRot_maps_up (fn fu tn tu : Vec3)
    (hfn : dot3 fn fn = 1) (hfu : dot3 fu fu = 1)
    (htn : dot3 tn tn = 1) (htu : dot3 tu tu = 1)
    (hcf : cross3 fu fn ≠ zero3) :
    mulV (calculate_rotation_matrix fn fu tn tu) (reorth_up fu fn) = reorth_up tu tn := by
  rw [calcRot_eq_frames fn fu tn tu hfn hfu htn htu]
  obtain ⟨h1, h2, h3, h4, h5⟩ := frame_facts fn fu hfn hcf
  rw [mulV_mmul, mulV_transpose_colStack, h5, h3]
  rw [show dot3 fn (reorth_up fu fn) = 0 from h4]
  exact mulV_colStack_e2 _ _ _

lemma mulV_dot_preserved (R : Mat3) (h : mmul (transposeM R) R = one3) (v : Vec3) :
    dot3 (mulV R v) (mulV R v) = dot3 v v := by
  simp only [mmul, transposeM, one3, Mat3.mk.injEq] at h
  obtain ⟨h1, h2, h3, h4, h5, h6, h7, h8, h9⟩ := h
  simp only [mulV, dot3]
  linear_combination v.x ^ 2 * h1 + v.x * v.y * h2 + v.x * v.z * h3 + v.y * v.x * h4 +
    v.y ^ 2 * h5 + v.y * v.z * h6 + v.z * v.x * h7 + v.z * v.y * h8 + v.z ^ 2 * h9

lemma vnorm_mulV (R : Mat3) (h : mmul (transposeM R) R = one3) (v : Vec3) :
    vnorm (mulV R v) = vnorm v := by
  unfold vnorm
  rw [mulV_dot_preserved R h v]

lemma detect_dirs_valid (b0 b1 b2 b3 b4 b5 : ℚ) :
    dot3 (detect_anatomical_features b0 b1 b2 b3 b4 b5).estimated_nose_dir
         (detect_anatomical_features b0 b1 b2 b3 b4 b5).estimated_nose_dir = 1 ∧
    dot3 (detect_anatomical_features b0 b1 b2 b3 b4 b5).estimated_up_dir
         (detect_anatomical_features b0 b1 b2 b3 b4 b5).estimated_up_dir = 1 ∧
    cross3 (detect_anatomical_features b0 b1 b2 b3 b4 b5).estimated_up_dir
           (detect_anatomical_features b0 b1 b2 b3 b4 b5).estimated_nose_dir ≠ zero3 := by
  unfold detect_anatomical_features
  cases orientation_guess_of (b1 - b0) (b3 - b2) (b5 - b4) <;>
    norm_num [dot3, cross3, zero3, Vec3.mk.injEq]

lemma target_dirs_valid :
    dot3 nose_direction nose_direction = 1 ∧
    dot3 up_direction up_direction = 1 ∧
    cross3 up_direction nose_direction ≠ zero3 := by
  norm_num [nose_direction, up_direction, dot3, cross3, zero3, Vec3.mk.injEq]

/-- C5: for non-parallel unit-vector input pairs the rotation solver returns
an exactly orthogonal matrix (R·Rᵗ = I) with determinant exactly 1, that
maps from_nose to to_nose and the re-orthogonalized from_up to the
re-orthogonalized to_up (so the ε-tolerance versions of these statements
hold for every ε > 0). -/
theorem rotation_solver_orthonormal (from_nose from_up to_nose to_up : Vec3)
    (hfn : dot3 from_nose from_nose = 1) (hfu : dot3 from_up from_up = 1)
    (htn : dot3 to_nose to_nose = 1) (htu : dot3 to_up to_up = 1)
    (hcf : cross3 from_up from_nose ≠ zero3) (hct : cross3 to_up to_nose ≠ zero3) :
    mmul (calculate_rotation_matrix from_nose from_up to_nose to_up)
         (transposeM (calculate_rotation_matrix from_nose from_up to_nose to_up)) = one3 ∧
    det3 (calculate_rotation_matrix from_nose from_up to_nose to_up) = 1 ∧
    mulV (calculate_rotation_matrix from_nose from_up to_nose to_up) from_nose = to_nose ∧
    mulV (calculate_rotation_matrix from_nose from_up to_nose to_up)
        (reorth_up from_up from_nose) = reorth_up to_up to_nose :=
  ⟨calcRot_right_orthogonal from_nose from_up to_nose to_up hfn hfu htn htu hcf hct,
   calcRot_det_one from_nose from_up to_nose to_up hfn hfu htn htu hcf hct,
   calcRot_maps_nose from_nose from_up to_nose to_up hfn hfu htn htu hcf,
   calcRot_maps_up from_nose from_up to_nose to_up hfn hfu htn htu hcf⟩

/-- C5 witness: the solver evaluated on the anatomical standard pair
(nose=+Z, up=+Y) as both source and target. -/
theorem rotation_solver_orthonormal_witness :
    dot3 nose_direction nose_direction = 1 ∧
    dot3 up_direction up_direction = 1 ∧
    cross3 up_direction nose_direction ≠ zero3 ∧
    (mmul (calculate_rotation_matrix nose_direction up_direction nose_direction up_direction)
       (transposeM
         (calculate_rotation_matrix nose_direction up_direction nose_direction up_direction)) =
       one3 ∧
     det3 (calculate_rotation_matrix nose_direction up_direction nose_direction up_direction) =
       1 ∧
     mulV (calculate_rotation_matrix nose_direction up_direction nose_direction up_direction)
       nose_direction = nose_direction ∧
     mulV (calculate_rotation_matrix nose_direction up_direction nose_direction up_direction)
       (reorth_up up_direction nose_direction) = reorth_up up_direction nose_direction) :=
  ⟨by norm_num [dot3, nose_direction],
   by norm_num [dot3, up_direction],
   by norm_num [cross3, nose_direction, up_direction, zero3, Vec3.mk.injEq],
   rotation_solver_orthonormal nose_direction up_direction nose_direction up_direction
     (by norm_num [dot3, nose_direction])
     (by norm_num [dot3, up_direction])
     (by norm_num [dot3, nose_direction])
     (by norm_num [dot3, up_direction])
     (by norm_num [cross3, nose_direction, up_direction, zero3, Vec3.mk.injEq])
     (by norm_num [cross3, nose_direction, up_direction, zero3, Vec3.mk.injEq])⟩

/-- C6: in scale-preserving mode the composed transform has scale factor
exactly 1, and the map p ↦ R(p + t) it applies preserves every pairwise
distance: ‖T p − T q‖ = ‖p − q‖ for all points p, q.  This holds for every
mesh because the detector only ever emits one of four orthonormal axis
pairs (including the `unknown` default). -/
theorem scale_free_transform_isometry (center : Vec3) (b0 b1 b2 b3 b4 b5 : ℚ) (p q : Vec3) :
    (calculate_anatomical_transform_no_scale
      (analyze_ply_anatomy center b0 b1 b2 b3 b4 b5)).scale_factor = 1 ∧
    vnorm (apply_vtk_transform
            (calculate_anatomical_transform_no_scale
              (analyze_ply_anatomy center b0 b1 b2 b3 b4 b5)) p -
          apply_vtk_transform
            (calculate_anatomical_transform_no_scale
              (analyze_ply_anatomy center b0 b1 b2 b3 b4 b5)) q) = vnorm (p - q) := by
  constructor
  · rfl
  · obtain ⟨hn1, hu1, hc1⟩ := detect_dirs_valid b0 b1 b2 b3 b4 b5
    obtain ⟨hn2, hu2, hc2⟩ := target_dirs_valid
    have hRortho := calcRot_left_orthogonal _ _ _ _ hn1 hu1 hn2 hu2 hc1 hc2
    have hdiff :
        apply_vtk_transform
            (calculate_anatomical_transform_no_scale
              (analyze_ply_anatomy center b0 b1 b2 b3 b4 b5)) p -
          apply_vtk_transform
            (calculate_anatomical_transform_no_scale
              (analyze_ply_anatomy center b0 b1 b2 b3 b4 b5)) q =
          mulV (calculate_rotation_matrix
            (detect_anatomical_features b0 b1 b2 b3 b4 b5).estimated_nose_dir
            (detect_anatomical_features b0 b1 b2 b3 b4 b5).estimated_up_dir
            nose_direction up_direction) (p - q) := by
      simp only [apply_vtk_transform, calculate_anatomical_transform_no_scale,
        analyze_ply_anatomy, anatomical_center, vec3_add_def, vec3_sub_def, vec3_smul_def,
        mulV, Rat.cast_one, Vec3.mk.injEq]
      refine ⟨?_, ?_, ?_⟩ <;> ring
    rw [hdiff]
    exact vnorm_mulV _ hRortho (p - q)

/-- C7: applying the composed transform to the pre-transform center yields
the target center (the origin) exactly, in both normal (scaling) and
scale-preserving modes, for every input mesh. -/
theorem transform_maps_center_to_origin (center : Vec3) (b0 b1 b2 b3 b4 b5 : ℚ) :
    apply_vtk_transform
      (calculate_anatomical_transform (analyze_ply_anatomy center b0 b1 b2 b3 b4 b5)) center =
      anatomical_center ∧
    apply_vtk_transform
      (calculate_anatomical_transform_no_scale
        (analyze_ply_anatomy center b0 b1 b2 b3 b4 b5)) center = anatomical_center := by
  constructor <;>
    · simp only [apply_vtk_transform, calculate_anatomical_transform,
        calculate_anatomical_transform_no_scale, analyze_ply_anatomy, anatomical_center,
        vec3_add_def, vec3_neg_def, vec3_sub_def, vec3_smul_def, mulV, Vec3.mk.injEq]
      refine ⟨?_, ?_, ?_⟩ <;> ring

/-- C3: the rotation solver has no parallel-input guard.  For the parallel
pair from_nose = from_up = (0,0,1), the cross product is the zero vector and
its norm is 0; the code divides by that zero norm without any check (numpy
produces NaN entries there; in this exact model the division yields the zero
vector) and the returned matrix is not the identity rotation.  No
OrientationAmbiguous condition is signalled anywhere. -/
theorem rotation_parallel_input_unguarded :
    cross3 ⟨0, 0, 1⟩ ⟨0, 0, 1⟩ = zero3 ∧
    vnorm (cross3 ⟨0, 0, 1⟩ ⟨0, 0, 1⟩) = 0 ∧
    calculate_rotation_matrix ⟨0, 0, 1⟩ ⟨0, 0, 1⟩ nose_direction up_direction ≠ one3 := by
  have hzero : cross3 (⟨0, 0, 1⟩ : Vec3) ⟨0, 0, 1⟩ = zero3 := by
    norm_num [cross3, zero3, Vec3.mk.injEq]
  have hnorm0 : vnorm (cross3 (⟨0, 0, 1⟩ : Vec3) ⟨0, 0, 1⟩) = 0 := by
    rw [hzero]
    unfold vnorm
    rw [show dot3 zero3 zero3 = 0 from by norm_num [dot3, zero3]]
    exact Real.sqrt_zero
  have hframes := calcRot_eq_frames ⟨0, 0, 1⟩ ⟨0, 0, 1⟩ nose_direction up_direction
    (by norm_num [dot3]) (by norm_num [dot3])
    (by norm_num [dot3, nose_direction]) (by norm_num [dot3, up_direction])
  have hr0 : right_of (⟨0, 0, 1⟩ : Vec3) ⟨0, 0, 1⟩ = zero3 := by
    unfold right_of
    rw [hzero]
    simp [vnormalize, zero3]
  have hu0 : reorth_up (⟨0, 0, 1⟩ : Vec3) ⟨0, 0, 1⟩ = zero3 := by
    unfold reorth_up
    rw [hr0]
    norm_num [cross3, zero3, Vec3.mk.injEq]
  have htr : right_of up_direction nose_direction = ⟨1, 0, 0⟩ := by
    unfold right_of
    rw [show cross3 up_direction nose_direction = ⟨1, 0, 0⟩ from by
      norm_num [cross3, up_direction, nose_direction, Vec3.mk.injEq]]
    exact vnormalize_unit _ (by norm_num [dot3])
  have htu2 : reorth_up up_direction nose_direction = ⟨0, 1, 0⟩ := by
    unfold reorth_up
    rw [htr]
    norm_num [cross3, nose_direction, Vec3.mk.injEq]
  refine ⟨hzero, hnorm0, ?_⟩
  rw [hframes, hr0, hu0, htr, htu2]
  intro hcontra
  have h00 := congrArg Mat3.xx hcontra
  norm_num [mmul, colStack, transposeM, zero3, nose_direction, one3] at h00
